import Mathlib

/-!
Verification of the Polymesh TVL adapter (`projects/polymesh/index.js`).

The JavaScript source is shallowly embedded: numeric values (JS `number`
results of divisions and multiplications) are modelled as rationals `ℚ`,
on-chain integer amounts (`BigInt`) as `ℕ`, promise rejection / thrown
exceptions as `Except String`, and `null`/missing values as `Option`.
External collaborators (the Polkadot API, the CoinGecko HTTP endpoint,
the chain connection) are modelled as oracle structures describing every
possible behaviour of each primitive, so theorems quantifying over the
oracle quantify over every behaviour of the collaborator.  Invocations of
external capabilities are recorded in an explicit effect trace
(`List Effect`), which lets frame properties ("no query is attempted")
be stated as facts about the trace.
-/

namespace Polymesh

/-- `CONFIG.CHAIN_NAME` from the source. -/
def CHAIN_NAME : String := "polymesh"

/-- `CONFIG.POLYX_DECIMALS` from the source: Polymesh uses 6 decimals. -/
def POLYX_DECIMALS : Nat := 6

/-- `CONFIG.POLYX_FALLBACK_PRICE` from the source: fallback USD price 0.3. -/
def POLYX_FALLBACK_PRICE : ℚ := 3 / 10

/-- `CONFIG.TREASURY_ACCOUNT` from the source: `null` (no treasury account
configured), embedded as `none`. -/
def TREASURY_ACCOUNT : Option String := none

/-- `CONFIG.MAINNET_LAUNCH_TIMESTAMP` from the source. -/
def MAINNET_LAUNCH_TIMESTAMP : Nat := 1639612800

/-- An invocation of an external capability, recorded in the effect trace:
the chain connection attempt, the CoinGecko price request, each of the
Polkadot API query primitives, and the disconnect call. -/
inductive Effect
  | connectAttempt
  | priceFetch
  | issuanceQuery
  | eraQuery
  | stakeQuery
  | accountQuery
  | disconnect
  deriving DecidableEq, Repr

/-- Behaviour of the Polkadot API handle (`polymesh._polkadotApi`): one
field per query primitive the adapter uses.  `Except.error` models a
rejected promise (thrown error); `Option` models a JS falsy / missing
value (`isSome` false, falsy `totalStake`, missing `account.data.free`). -/
structure Api where
  totalIssuance : Except String Nat
  stakingAvailable : Bool
  activeEra : Except String (Option Nat)
  erasTotalStake : Nat → Except String (Option Nat)
  account : String → Except String (Option Nat)

/-- Behaviour of one CoinGecko request (`axios.get` in
`fetchPolyxPriceFromCoinGecko`): either the request throws (network
failure, timeout), or a response arrives whose
`data?.polymesh?.usd` field is `field` (`none` when absent). -/
inductive FetchOutcome
  | failure (msg : String)
  | success (field : Option ℚ)

/-- Behaviour of the external world for one run of `fetch`: the outcome of
`Polymesh.connect` (an `Api` handle on success), the outcome of the one
CoinGecko request, and whether `disconnect` succeeds (its failure is
swallowed by the source). -/
structure World where
  connect : Except String Api
  price : FetchOutcome
  disconnectOk : Bool

/-- `ChainData`: the record returned by `queryChainData`, all amounts in
the smallest integer unit. -/
structure ChainData where
  totalIssuance : Nat
  totalStaked : Nat
  treasuryBalance : Nat
  deriving DecidableEq, Repr

/-- `TVLBreakdown`: the record returned by `calculateTVL`, amounts in
native (whole-POLYX) units. -/
structure TVLBreakdown where
  totalIssuance : ℚ
  totalStaked : ℚ
  treasuryBalance : ℚ
  tvlPolyx : ℚ
  tvlUsd : ℚ
  polyxPrice : ℚ
  deriving DecidableEq, Repr

/-- `AdapterResult`: the object `{ [CONFIG.CHAIN_NAME]: tvlUsd }` returned
by the adapter — a single chain key mapped to one USD figure. -/
structure AdapterResult where
  chain : String
  tvlUsd : ℚ
  deriving DecidableEq, Repr

/-- `toPolyx` from the source: divide a smallest-unit amount by
`10 ^ CONFIG.POLYX_DECIMALS` (`Number(amount) / divisor`). -/
def toPolyx (amount : Nat) : ℚ :=
  let divisor : ℚ := 10 ^ POLYX_DECIMALS
  (amount : ℚ) / divisor

/-- `fetchPolyxPriceFromCoinGecko` from the source: returns the `usd`
field when the request succeeds and the field is present and truthy
(a JS number is truthy iff nonzero); on a thrown request or a falsy /
missing field the internal catch returns `null` (`none` here). -/
def fetchPolyxPriceFromCoinGecko (o : FetchOutcome) : Option ℚ :=
  match o with
  | .failure _ => none
  | .success none => none
  | .success (some v) => if v ≠ 0 then some v else none

/-- `getPolyxPrice` from the source: use the CoinGecko value when it is
non-null and strictly positive (`if (price && price > 0)`), otherwise
return `CONFIG.POLYX_FALLBACK_PRICE`. -/
def getPolyxPrice (o : FetchOutcome) : ℚ :=
  let price := fetchPolyxPriceFromCoinGecko o
  match price with
  | some p => if 0 < p then p else POLYX_FALLBACK_PRICE
  | none => POLYX_FALLBACK_PRICE

/-- `queryTotalStaked` from the source: if the staking module is missing
return 0; query the active era (caught on throw, 0 when none); then query
that era's total stake (caught on throw, 0 when falsy).  The try/catch
spans both queries, so the function never fails; the trace records which
API primitives were invoked. -/
def queryTotalStaked (api : Api) : Nat × List Effect :=
  if !api.stakingAvailable then (0, [])
  else
    match api.activeEra with
    | .error _ => (0, [.eraQuery])
    | .ok none => (0, [.eraQuery])
    | .ok (some era) =>
      match api.erasTotalStake era with
      | .error _ => (0, [.eraQuery, .stakeQuery])
      | .ok none => (0, [.eraQuery, .stakeQuery])
      | .ok (some s) => (s, [.eraQuery, .stakeQuery])

/-- `queryTreasuryBalance` from the source.  The source reads the global
`CONFIG.TREASURY_ACCOUNT`; that configuration value is passed explicitly
here (the repository's value is `TREASURY_ACCOUNT = none`).  When no
account is configured the query is skipped and 0 returned; otherwise the
account is queried (caught on throw, 0 when `data.free` is missing). -/
def queryTreasuryBalance (treasury : Option String) (api : Api) :
    Nat × List Effect :=
  match treasury with
  | none => (0, [])
  | some acct =>
    match api.account acct with
    | .error _ => (0, [.accountQuery])
    | .ok none => (0, [.accountQuery])
    | .ok (some free) => (free, [.accountQuery])

/-- `queryChainData` from the source: `Promise.all` of the unguarded
total-issuance query and the two guarded sub-queries.  All three promises
start (so all traces are recorded); if the unguarded total-issuance query
rejects, `Promise.all` rejects and the whole call fails with that error,
otherwise the complete `ChainData` is returned. -/
def queryChainData (treasury : Option String) (api : Api) :
    Except String ChainData × List Effect :=
  let ti := api.totalIssuance
  let staked := queryTotalStaked api
  let treasuryBal := queryTreasuryBalance treasury api
  let trace := Effect.issuanceQuery :: (staked.2 ++ treasuryBal.2)
  match ti with
  | .error e => (.error e, trace)
  | .ok v =>
    (.ok { totalIssuance := v, totalStaked := staked.1,
           treasuryBalance := treasuryBal.1 }, trace)

/-- `calculateTVL` from the source: TVL = staked + treasury (smallest
unit), converted to POLYX and priced in USD; issuance is converted for
reporting only. -/
def calculateTVL (chainData : ChainData) (polyxPrice : ℚ) : TVLBreakdown :=
  let tvlInSmallestUnit := chainData.totalStaked + chainData.treasuryBalance
  let tvlPolyx := toPolyx tvlInSmallestUnit
  let tvlUsd := tvlPolyx * polyxPrice
  { totalIssuance := toPolyx chainData.totalIssuance
    totalStaked := toPolyx chainData.totalStaked
    treasuryBalance := toPolyx chainData.treasuryBalance
    tvlPolyx := tvlPolyx
    tvlUsd := tvlUsd
    polyxPrice := polyxPrice }

/-- The `mockData` breakdown built inside `fetchDemo`. -/
def mockData : TVLBreakdown :=
  { totalIssuance := 1000
    totalStaked := 300
    treasuryBalance := 50
    tvlPolyx := 350
    tvlUsd := 350 * POLYX_FALLBACK_PRICE
    polyxPrice := POLYX_FALLBACK_PRICE }

/-- `fetchDemo` from the source: the deterministic mock `AdapterResult`;
it performs no external invocation (logging only). -/
def fetchDemo : AdapterResult :=
  { chain := CHAIN_NAME, tvlUsd := mockData.tvlUsd }

/-- `fetch` from the source, parameterised by the environment-derived
`CONFIG.DEMO_MODE` flag, the `CONFIG.TREASURY_ACCOUNT` configuration
value, and the world's behaviour.  Demo mode short-circuits to
`fetchDemo` with an empty trace.  Otherwise: connect (a thrown connection
error is caught, falling back to `fetchDemo`; `polymesh` is unset so no
disconnect happens); then price and chain data are fetched in parallel
(`getPolyxPrice` never throws; a `queryChainData` rejection is caught,
falling back to `fetchDemo`); then the breakdown is computed and the
result returned.  The `finally` block disconnects whenever the connection
was established, swallowing any disconnect failure, so the trace ends
with `disconnect` on every such path and the result is unaffected. -/
def fetch (demoMode : Bool) (treasury : Option String) (w : World) :
    AdapterResult × List Effect :=
  if demoMode then (fetchDemo, [])
  else
    match w.connect with
    | .error _ => (fetchDemo, [.connectAttempt])
    | .ok api =>
      let polyxPrice := getPolyxPrice w.price
      let chainRes := queryChainData treasury api
      let trace :=
        Effect.connectAttempt :: Effect.priceFetch :: chainRes.2
          ++ [Effect.disconnect]
      match chainRes.1 with
      | .error _ => (fetchDemo, trace)
      | .ok chainData =>
        let tvl := calculateTVL chainData polyxPrice
        ({ chain := CHAIN_NAME, tvlUsd := tvl.tvlUsd }, trace)

/-- `tvl` from the source: the historical entry point; both arguments are
ignored and the current-state `fetch` result is returned. -/
def tvl (timestamp block : Nat) (demoMode : Bool)
    (treasury : Option String) (w : World) : AdapterResult × List Effect :=
  fetch demoMode treasury w

/-- The shape of `module.exports`: flags, methodology, start timestamp,
and the per-chain entry `{ tvl: fetchFn, fetch: fetchFn }`. -/
structure ModuleExports where
  timetravel : Bool
  misrepresentedTokens : Bool
  methodology : String
  start : Nat
  chainName : String
  chainTvl : Bool → Option String → World → AdapterResult × List Effect
  chainFetch : Bool → Option String → World → AdapterResult × List Effect

/-- `module.exports` from the source: note both the `tvl` and `fetch`
keys of the chain entry are bound to the `fetch` function. -/
def moduleExports : ModuleExports :=
  { timetravel := false
    misrepresentedTokens := false
    methodology :=
      "Polymesh TVL includes staked POLYX tokens and treasury holdings. " ++
      "Staked tokens are locked in the consensus mechanism (Proof of Stake). " ++
      "Treasury holdings represent governance-locked funds. " ++
      "Data is fetched directly from Polymesh blockchain via Polymesh SDK and Polkadot.js API. " ++
      "Prices are sourced from CoinGecko with fallback to cached values."
    start := MAINNET_LAUNCH_TIMESTAMP
    chainName := CHAIN_NAME
    chainTvl := fetch
    chainFetch := fetch }

end Polymesh

namespace Polymesh

/-! ### Concrete oracle behaviours used by witnesses and counterexamples -/

/-- An API handle whose unguarded total-issuance query throws while every
guarded primitive behaves benignly. -/
def apiIssuanceThrows : Api :=
  { totalIssuance := .error "issuance failure"
    stakingAvailable := false
    activeEra := .ok none
    erasTotalStake := fun _ => .ok none
    account := fun _ => .ok none }

/-- An API handle where total issuance succeeds but both guarded
sub-queries (active-era and account-balance) throw. -/
def apiGuardedThrow : Api :=
  { totalIssuance := .ok 7
    stakingAvailable := true
    activeEra := .error "era failure"
    erasTotalStake := fun _ => .error "stake failure"
    account := fun _ => .error "account failure" }

/-- An API handle where only the era-total-stake step throws: issuance
and the account query succeed (account free balance 4). -/
def apiStakeThrows : Api :=
  { totalIssuance := .ok 7
    stakingAvailable := true
    activeEra := .ok (some 5)
    erasTotalStake := fun _ => .error "stake failure"
    account := fun _ => .ok (some 4) }

/-- An API handle where only the account-balance query throws: issuance
and the staking queries succeed (era total stake 9). -/
def apiAccountThrows : Api :=
  { totalIssuance := .ok 7
    stakingAvailable := true
    activeEra := .ok (some 5)
    erasTotalStake := fun _ => .ok (some 9)
    account := fun _ => .error "account failure" }

/-- A world in which the chain connection attempt itself throws. -/
def worldConnectFails : World :=
  { connect := .error "connection refused"
    price := .failure "network down"
    disconnectOk := true }

/-- A world that connects fine but whose total-issuance query throws. -/
def worldIssuanceFails : World :=
  { connect := .ok apiIssuanceThrows
    price := .success (some 1)
    disconnectOk := true }

/-! ### Claims -/

/-- C9: for every non-negative integer `a`, `toPolyx a` equals `a`
divided by `10 ^ decimals` with `decimals = 6`, exactly (the embedding
uses exact rational arithmetic); the function is a total Lean `def`
with no error conditions. -/
theorem toPolyx_exact_division (a : Nat) :
    toPolyx a = (a : ℚ) / 10 ^ 6 ∧ POLYX_DECIMALS = 6 :=
  ⟨rfl, rfl⟩

/-- C6: with decimals 6, `calculateTVL` on totalIssuance 1000000000,
totalStaked 300000000, treasuryBalance 50000000 at price 0.3 yields
`tvlPolyx = 350` and `tvlUsd = 105`. -/
theorem calculateTVL_scenario1 :
    (calculateTVL ⟨1000000000, 300000000, 50000000⟩ (3 / 10)).tvlPolyx = 350 ∧
    (calculateTVL ⟨1000000000, 300000000, 50000000⟩ (3 / 10)).tvlUsd = 105 := by
  constructor <;> norm_num [calculateTVL, toPolyx, POLYX_DECIMALS]

/-- C4: for every `ChainData` and every price, the breakdown satisfies
`tvlPolyx = totalStaked + treasuryBalance` (in native units) and
`tvlUsd = tvlPolyx * price`; replacing `totalIssuance` by any other
value leaves `tvlPolyx` and `tvlUsd` unchanged. -/
theorem calculateTVL_invariant (chainData : ChainData) (polyxPrice : ℚ) :
    (calculateTVL chainData polyxPrice).tvlPolyx
      = (calculateTVL chainData polyxPrice).totalStaked
        + (calculateTVL chainData polyxPrice).treasuryBalance ∧
    (calculateTVL chainData polyxPrice).tvlUsd
      = (calculateTVL chainData polyxPrice).tvlPolyx * polyxPrice ∧
    ∀ ti : Nat,
      (calculateTVL { chainData with totalIssuance := ti } polyxPrice).tvlPolyx
        = (calculateTVL chainData polyxPrice).tvlPolyx ∧
      (calculateTVL { chainData with totalIssuance := ti } polyxPrice).tvlUsd
        = (calculateTVL chainData polyxPrice).tvlUsd := by
  refine ⟨?_, rfl, fun ti => ⟨rfl, rfl⟩⟩
  simp only [calculateTVL, toPolyx]
  push_cast
  ring

/-- C5: `getPolyxPrice` always returns a value: the live value when the
primary source succeeds with a strictly positive number, and the static
fallback on a thrown request, a missing field, or a value ≤ 0. -/
theorem getPolyxPrice_total_with_fallback :
    (∀ v : ℚ, 0 < v → getPolyxPrice (FetchOutcome.success (some v)) = v) ∧
    (∀ msg, getPolyxPrice (FetchOutcome.failure msg) = POLYX_FALLBACK_PRICE) ∧
    getPolyxPrice (FetchOutcome.success none) = POLYX_FALLBACK_PRICE ∧
    (∀ v : ℚ, v ≤ 0 →
      getPolyxPrice (FetchOutcome.success (some v)) = POLYX_FALLBACK_PRICE) := by
  refine ⟨fun v hv => ?_, fun msg => rfl, rfl, fun v hv => ?_⟩
  · simp [getPolyxPrice, fetchPolyxPriceFromCoinGecko, hv.ne', hv]
  · by_cases h0 : v = 0
    · simp [getPolyxPrice, fetchPolyxPriceFromCoinGecko, h0]
    · simp [getPolyxPrice, fetchPolyxPriceFromCoinGecko, h0, not_lt.mpr hv]

/-- Witness for C5 at concrete outcomes: a live value 2, a network
failure, and a negative value -1. -/
theorem getPolyxPrice_total_with_fallback_witness :
    getPolyxPrice (FetchOutcome.success (some 2)) = 2 ∧
    getPolyxPrice (FetchOutcome.failure "network down") = POLYX_FALLBACK_PRICE ∧
    getPolyxPrice (FetchOutcome.success (some (-1))) = POLYX_FALLBACK_PRICE :=
  ⟨getPolyxPrice_total_with_fallback.1 2 (by norm_num),
   getPolyxPrice_total_with_fallback.2.1 "network down",
   getPolyxPrice_total_with_fallback.2.2.2 (-1) (by norm_num)⟩

/-- C7: with the repository's configuration (`TREASURY_ACCOUNT = none`),
`queryTreasuryBalance` returns exactly 0 for every API behaviour, with an
empty effect trace — in particular the account-balance capability is
never invoked — and it returns normally, not an error. -/
theorem queryTreasuryBalance_unconfigured (api : Api) :
    queryTreasuryBalance TREASURY_ACCOUNT api = (0, []) ∧
    Effect.accountQuery ∉ (queryTreasuryBalance TREASURY_ACCOUNT api).2 :=
  ⟨rfl, by simp [queryTreasuryBalance, TREASURY_ACCOUNT]⟩

/-- C3: if the total-issuance query throws, the failure propagates out of
`queryChainData`, which fails with that same error. -/
theorem queryChainData_issuance_error_propagates (treasury : Option String)
    (api : Api) (e : String) (h : api.totalIssuance = Except.error e) :
    (queryChainData treasury api).1 = Except.error e := by
  simp [queryChainData, h]

/-- Witness for C3 at a concrete API whose total-issuance query throws. -/
theorem queryChainData_issuance_error_propagates_witness :
    (queryChainData (some "treasuryAcct") apiIssuanceThrows).1
      = Except.error "issuance failure" :=
  queryChainData_issuance_error_propagates (some "treasuryAcct")
    apiIssuanceThrows "issuance failure" rfl

/-- Counterexample to C2 as stated: the total-issuance sub-query is one
of the three chain sub-queries, yet when it throws `queryChainData` does
not return a complete `ChainData` with that field 0 — it fails with the
error. -/
theorem queryChainData_issuance_not_degraded :
    (queryChainData none apiIssuanceThrows).1
      = Except.error "issuance failure" := rfl

/-- C2 (amended): provided the unguarded total-issuance query succeeds,
each guarded sub-query degrades independently: if the active-era query
throws, or the era-total-stake query throws, the `totalStaked` field is
0 while `treasuryBalance` keeps its queried value; if the account query
throws, the `treasuryBalance` field is 0 while `totalStaked` keeps its
queried value.  In every such case `queryChainData` returns a complete
`ChainData` rather than failing. -/
theorem queryChainData_guarded_degrade (treasury : Option String) (api : Api)
    (ti : Nat) (hti : api.totalIssuance = Except.ok ti) :
    (∀ msg, api.activeEra = Except.error msg →
      (queryChainData treasury api).1
        = Except.ok { totalIssuance := ti, totalStaked := 0,
                      treasuryBalance :=
                        (queryTreasuryBalance treasury api).1 }) ∧
    (∀ era msg, api.activeEra = Except.ok (some era) →
        api.erasTotalStake era = Except.error msg →
      (queryChainData treasury api).1
        = Except.ok { totalIssuance := ti, totalStaked := 0,
                      treasuryBalance :=
                        (queryTreasuryBalance treasury api).1 }) ∧
    (∀ a msg, treasury = some a → api.account a = Except.error msg →
      (queryChainData treasury api).1
        = Except.ok { totalIssuance := ti,
                      totalStaked := (queryTotalStaked api).1,
                      treasuryBalance := 0 }) := by
  refine ⟨fun msg hera => ?_, fun era msg hera hstake => ?_,
          fun a msg htr hacc => ?_⟩
  · have hs : (queryTotalStaked api).1 = 0 := by
      cases hav : api.stakingAvailable
      · simp [queryTotalStaked, hav]
      · simp [queryTotalStaked, hav, hera]
    simp [queryChainData, hti, hs]
  · have hs : (queryTotalStaked api).1 = 0 := by
      cases hav : api.stakingAvailable
      · simp [queryTotalStaked, hav]
      · simp [queryTotalStaked, hav, hera, hstake]
    simp [queryChainData, hti, hs]
  · have ht : (queryTreasuryBalance treasury api).1 = 0 := by
      subst htr
      simp [queryTreasuryBalance, hacc]
    simp [queryChainData, hti, ht]

/-- Witness for the amended C2 at concrete APIs covering all three
failure modes: era query throws (staked 0, treasury degraded to 0 too
since that account query also throws), only the era-total-stake step
throws (staked 0, treasury keeps its queried value 4), and only the
account query throws (treasury 0, staked keeps its queried value 9). -/
theorem queryChainData_guarded_degrade_witness :
    (queryChainData (some "treasuryAcct") apiGuardedThrow).1
      = Except.ok { totalIssuance := 7, totalStaked := 0,
                    treasuryBalance := 0 } ∧
    (queryChainData (some "treasuryAcct") apiStakeThrows).1
      = Except.ok { totalIssuance := 7, totalStaked := 0,
                    treasuryBalance := 4 } ∧
    (queryChainData (some "treasuryAcct") apiAccountThrows).1
      = Except.ok { totalIssuance := 7, totalStaked := 9,
                    treasuryBalance := 0 } :=
  ⟨(queryChainData_guarded_degrade (some "treasuryAcct") apiGuardedThrow
      7 rfl).1 "era failure" rfl,
   (queryChainData_guarded_degrade (some "treasuryAcct") apiStakeThrows
      7 rfl).2.1 5 "stake failure" rfl rfl,
   (queryChainData_guarded_degrade (some "treasuryAcct") apiAccountThrows
      7 rfl).2.2 "treasuryAcct" "account failure" rfl rfl⟩

/-- C1: `fetch` is a total function returning an `AdapterResult` for
every world behaviour (it cannot throw, by construction), and whenever
the non-demo path throws — the connection attempt fails, or the
unguarded total-issuance query fails — the error is caught at the
orchestrator boundary and the result equals the demo-mode mock output. -/
theorem fetch_never_fails_outward (treasury : Option String) (w : World)
    (h : (∃ e, w.connect = Except.error e) ∨
         (∃ api e, w.connect = Except.ok api ∧
            api.totalIssuance = Except.error e)) :
    (fetch false treasury w).1 = fetchDemo ∧
    (fetch false treasury w).1 = (fetch true treasury w).1 := by
  rcases h with ⟨e, he⟩ | ⟨api, e, hok, hti⟩
  · simp [fetch, he]
  · constructor <;> simp [fetch, hok, queryChainData, hti]

/-- Witness for C1 at a concrete world whose connection attempt throws. -/
theorem fetch_never_fails_outward_witness :
    (fetch false none worldConnectFails).1 = fetchDemo ∧
    (fetch false none worldConnectFails).1 = (fetch true none worldConnectFails).1 :=
  fetch_never_fails_outward none worldConnectFails
    (Or.inl ⟨"connection refused", rfl⟩)

/-- C8: with the demo-mode flag set, `fetch` returns the fixed mock
result mapping the chain name to 105 (= 350 × the 0.3 fallback price)
for every treasury configuration and every world behaviour, with an
empty effect trace: no connection, chain query, or price fetch is
attempted. -/
theorem fetch_demo_mode (treasury : Option String) (w : World) :
    fetch true treasury w = ({ chain := "polymesh", tvlUsd := 105 }, []) := by
  show (fetchDemo, ([] : List Effect)) = _
  norm_num [fetchDemo, mockData, CHAIN_NAME, POLYX_FALLBACK_PRICE]

/-- C10: the historical entry point `tvl` ignores both its timestamp and
block arguments and returns exactly the `fetch` result; moreover the
module's per-chain entry binds both its `tvl` and `fetch` keys to the
same `fetch` function, while advertising `timetravel = false`. -/
theorem tvl_ignores_arguments (timestamp block : Nat) (demoMode : Bool)
    (treasury : Option String) (w : World) :
    tvl timestamp block demoMode treasury w = fetch demoMode treasury w ∧
    moduleExports.chainTvl = fetch ∧
    moduleExports.chainFetch = fetch ∧
    moduleExports.timetravel = false :=
  ⟨rfl, rfl, rfl, rfl⟩

end Polymesh
